import Mathlib

/-!
Verification of the PDF image stream decoder (`CPDF_DIB`, cpdf_dib.cpp)
against its natural-language specification.  The C++ source is shallowly
embedded: pure helper functions become Lean functions over `Nat`/`Int`/`ℚ`,
the stateful decoder state machine becomes explicit state passing, and
fallible computations return `Option`.
-/

namespace PdfiumDib

/-- `CPDF_DIB::LoadState` (tri-state decode driver result). -/
inductive LoadState
  | kSuccess
  | kContinue
  | kFail
  deriving DecidableEq, Repr

/-- `CPDF_ColorSpace::Family` tags. -/
inductive Family
  | kUnknown
  | kDeviceGray
  | kDeviceRGB
  | kDeviceCMYK
  | kCalGray
  | kCalRGB
  | kLab
  | kICCBased
  | kIndexed
  | kSeparation
  | kDeviceN
  | kPattern
  deriving DecidableEq, Repr

/-- OpenJPEG colorspace constants (`OPJ_CLRSPC_*`), as consulted by
`GetJpxDecodeAction`. -/
inductive OpjColorSpace
  | unknown
  | unspecified
  | srgb
  | gray
  | sycc
  | cmyk
  deriving DecidableEq, Repr

/-- `CJPX_Decoder::JpxImageInfo`, restricted to the fields
`GetJpxDecodeAction` reads. -/
structure JpxImageInfo where
  components : Nat
  colorspace : OpjColorSpace
  deriving DecidableEq, Repr

/-- The PDF colorspace as seen by `GetJpxDecodeAction`: its component count
(`CountComponents()`) and whether it is pointer-identical to the stock
`DeviceRGB` colorspace (`GetStockCS(kDeviceRGB)`). -/
structure PdfCsInfo where
  countComponents : Nat
  isStockDeviceRGB : Bool
  deriving DecidableEq, Repr

/-- `JpxDecodeAction` (anonymous-namespace enum in cpdf_dib.cpp). -/
inductive JpxDecodeAction
  | kFail
  | kDoNothing
  | kUseRgb
  | kUseCmyk
  | kConvertArgbToRgb
  deriving DecidableEq, Repr

/-- `GetJpxDecodeAction` (cpdf_dib.cpp lines 114-149), embedded from the
source: the PDF colorspace pointer becomes an `Option`. -/
def GetJpxDecodeAction (jpx_info : JpxImageInfo) (pdf_colorspace : Option PdfCsInfo) :
    JpxDecodeAction :=
  match pdf_colorspace with
  | some cs =>
    if jpx_info.components ≠ cs.countComponents then
      if cs.countComponents = 3 ∧ jpx_info.components = 4 ∧
          jpx_info.colorspace = OpjColorSpace.srgb then
        JpxDecodeAction.kConvertArgbToRgb
      else
        JpxDecodeAction.kFail
    else if cs.isStockDeviceRGB then
      JpxDecodeAction.kUseRgb
    else
      JpxDecodeAction.kDoNothing
  | none =>
    match jpx_info.components with
    | 3 => JpxDecodeAction.kUseRgb
    | 4 => JpxDecodeAction.kUseCmyk
    | _ => JpxDecodeAction.kDoNothing

/-- The decode-action table exactly as the spec states it (§4.5 step 3),
written from the spec's words for comparison with `GetJpxDecodeAction`. -/
def jpxDecodeActionSpecTable (jpx_info : JpxImageInfo) (pdf_colorspace : Option PdfCsInfo) :
    JpxDecodeAction :=
  match pdf_colorspace with
  | some cs =>
    if jpx_info.components = cs.countComponents then
      if cs.isStockDeviceRGB then JpxDecodeAction.kUseRgb else JpxDecodeAction.kDoNothing
    else if cs.countComponents = 3 ∧ jpx_info.components = 4 ∧
        jpx_info.colorspace = OpjColorSpace.srgb then
      JpxDecodeAction.kConvertArgbToRgb
    else
      JpxDecodeAction.kFail
  | none =>
    if jpx_info.components = 3 then JpxDecodeAction.kUseRgb
    else if jpx_info.components = 4 then JpxDecodeAction.kUseCmyk
    else JpxDecodeAction.kDoNothing

/-! ### Pitch and size checks (C5, C6) -/

/-- Modelled from the spec: `fxcodec::CalculatePitch8` lives in
core/fxcodec/fx_codec.cpp which is not part of this fragment; spec §4.2
defines it as `pitch_bytes_per_row(bpc, n_components, width) =
ceil(bpc * n_components * width / 8)` computed in checked 32-bit
arithmetic, with overflow yielding `None`. -/
def CalculatePitch8 (bpc nComponents width : Nat) : Option Nat :=
  if bpc * nComponents * width + 7 < 2 ^ 32 then
    some ((bpc * nComponents * width + 7) / 8)
  else
    none

/-- `IsValidDimension` (cpdf_dib.cpp lines 42-45). -/
def IsValidDimension (value : Int) : Bool :=
  value > 0 && value ≤ 0x01FFFF

/-- The buffer-size stage of `CPDF_DIB::StartLoadDIBBase` (cpdf_dib.cpp
lines 288-299, identical in `Load` lines 184-195): `maybe_size =
CalculatePitch8(m_bpc, m_nComponents, m_Width)`, then `src_size =
maybe_size * m_Height` in `FX_SAFE_UINT32` checked 32-bit arithmetic.
`none` means the function returns `LoadState::kFail` before
`LoadAllDataImageAcc` is called; `some s` means `s` is the size passed to
the allocation. -/
def startLoadSizeCheck (bpc nComponents width height : Nat) : Option Nat :=
  match CalculatePitch8 bpc nComponents width with
  | none => none
  | some pitch =>
    if pitch * height < 2 ^ 32 then some (pitch * height) else none

/-- The post-construction pitch validation at the tail of
`CPDF_DIB::CreateDecoder` (cpdf_dib.cpp lines 550-563), reached after a
lazy scanline decoder (CCITTFax / Flate / RunLength / DCT) was
constructed: `requested_pitch = CalculatePitch8(m_bpc, m_nComponents,
m_Width)`, `provided_pitch = CalculatePitch8(decoder.GetBPC(),
decoder.CountComps(), decoder.GetWidth())`; failure of either computation
or `provided < requested` yields `kFail`, otherwise `kSuccess`. -/
def createDecoderPitchCheck (bpc nComponents width decBpc decComps decWidth : Nat) :
    LoadState :=
  match CalculatePitch8 bpc nComponents width with
  | none => LoadState.kFail
  | some requested =>
    match CalculatePitch8 decBpc decComps decWidth with
    | none => LoadState.kFail
    | some provided =>
      if provided < requested then LoadState.kFail else LoadState.kSuccess

/-! ### Mask loading and continuation state machine (C7, C9) -/

/-- `FXCODEC_STATUS` values consulted by `ContinueLoadDIBBase` for the
JBIG2 decode step. -/
inductive FxcodecStatus
  | kError
  | kDecodeToBeContinued
  | kDecodeFinished
  deriving DecidableEq, Repr

/-- `CPDF_DIB::ContinueLoadMaskDIB` (cpdf_dib.cpp lines 814-830) as a
function of the current mask presence (`m_pMask != nullptr`) and of the
result the mask sub-decoder's `ContinueLoadDIBBase` would produce.
Returns the new mask presence and the `LoadState` returned to the caller:
on `kFail` the mask is reset (`m_pMask.Reset()`) and `kFail` is returned. -/
def continueLoadMaskDIB (maskPresent : Bool) (maskResult : LoadState) :
    Bool × LoadState :=
  if !maskPresent then
    (false, LoadState.kSuccess)
  else
    match maskResult with
    | LoadState.kContinue => (true, LoadState.kContinue)
    | LoadState.kFail => (false, LoadState.kFail)
    | LoadState.kSuccess => (true, LoadState.kSuccess)

/-- `CPDF_DIB::StartLoadMaskDIB` (cpdf_dib.cpp lines 840-854) as a
function of the current `m_Status` and of the result of the recursive
`StartLoadDIBBase` on the freshly created mask sub-decoder.  Returns
`(new m_Status, mask present afterwards, returned LoadState)`: on
`kContinue` the status is promoted from `kFail` to `kContinue`; on `kFail`
the mask is reset and `kSuccess` is returned. -/
def startLoadMaskDIB (status : LoadState) (subStart : LoadState) :
    LoadState × Bool × LoadState :=
  match subStart with
  | LoadState.kContinue =>
    ((if status = LoadState.kFail then LoadState.kContinue else status),
      true, LoadState.kContinue)
  | LoadState.kFail => (status, false, LoadState.kSuccess)
  | LoadState.kSuccess => (status, true, LoadState.kSuccess)

/-- `CPDF_DIB::ContinueLoadDIBBase` (cpdf_dib.cpp lines 323-392) as a
function of the stored `m_Status`, the terminal filter name
(`m_pStreamAcc->GetImageDecoder()`), the `FXCODEC_STATUS` the JBIG2
start/continue step would yield, whether a mask was requested
(`m_bHasMask`), the mask presence, and the result the mask sub-decoder's
continuation would produce.  When `m_Status == kContinue` the call
dispatches directly to `ContinueLoadMaskDIB` and returns its result;
otherwise `JPXDecode` fails, any filter other than `JBIG2Decode` returns
`kSuccess` untouched, and the JBIG2 path maps the codec status to the
driver state, swallowing everything but `kContinue` from a trailing
`ContinueLoadMaskDIB` call. -/
def continueLoadDIBBase (status : LoadState) (decoder : String)
    (jbig2Status : FxcodecStatus) (hasMask : Bool) (maskPresent : Bool)
    (maskResult : LoadState) : LoadState :=
  if status = LoadState.kContinue then
    (continueLoadMaskDIB maskPresent maskResult).2
  else if decoder = "JPXDecode" then
    LoadState.kFail
  else if decoder ≠ "JBIG2Decode" then
    LoadState.kSuccess
  else if status = LoadState.kFail then
    LoadState.kFail
  else
    match jbig2Status with
    | FxcodecStatus.kError => LoadState.kFail
    | FxcodecStatus.kDecodeToBeContinued => LoadState.kContinue
    | FxcodecStatus.kDecodeFinished =>
      if hasMask &&
          (continueLoadMaskDIB maskPresent maskResult).2 = LoadState.kContinue then
        LoadState.kContinue
      else
        LoadState.kSuccess

/-! ### Matte color for SMask loading (C8) -/

/-- Modelled from the spec: `FXSYS_roundf` (core/fxcrt, not part of this
fragment); the spec (§4.9) writes `round(R*255)`, modelled as
round-half-up on rationals. -/
def roundHalfUp (q : ℚ) : Int :=
  ⌊q + 1 / 2⌋

/-- Low byte of a machine integer, as produced by truncating int → byte
conversion. -/
def byteOfInt (i : Int) : Nat :=
  (i % 256).toNat

/-- Modelled from the spec: `ArgbEncode` (core/fxge/dib/fx_dib.h, not part
of this fragment); the spec (§4.9) writes `ARGB(a, r, g, b)`, the packed
32-bit value `a<<24 | r<<16 | g<<8 | b`. -/
def ArgbEncode (a r g b : Int) : Nat :=
  byteOfInt a * 2 ^ 24 + byteOfInt r * 2 ^ 16 + byteOfInt g * 2 ^ 8 + byteOfInt b

/-- The inputs `CPDF_DIB::StartLoadMask` consults when computing
`m_MatteColor` for an `SMask` stream (cpdf_dib.cpp lines 790-811):
the `Matte` array of the SMask dictionary (as numbers; `none` when
absent), whether `m_pColorSpace` is non-null, `m_Family`,
`m_nComponents`, `m_pColorSpace->CountComponents()`, and the colorspace's
`GetRGB` as an abstract function. -/
structure MatteEnv where
  matte : Option (List ℚ)
  csPresent : Bool
  family : Family
  nComponents : Nat
  csCountComponents : Nat
  toRGB : List ℚ → ℚ × ℚ × ℚ

/-- The `m_MatteColor` computation of `CPDF_DIB::StartLoadMask` for the
`SMask`-stream case (cpdf_dib.cpp lines 774, 796-810): initialized to
`0xFFFFFFFF`; overwritten with `ArgbEncode(0, round(R*255), round(G*255),
round(B*255))` only when the Matte array is present, the colorspace is
present, the family is not Pattern, the array length equals
`m_nComponents`, and `CountComponents() ≤ m_nComponents`. -/
def startLoadMaskMatteColor (e : MatteEnv) : Nat :=
  match e.matte with
  | none => 0xFFFFFFFF
  | some colors =>
    if e.csPresent = true ∧ e.family ≠ Family.kPattern ∧
        colors.length = e.nComponents ∧
        e.csCountComponents ≤ e.nComponents then
      let rgb := e.toRGB colors
      ArgbEncode 0 (roundHalfUp (rgb.1 * 255)) (roundHalfUp (rgb.2.1 * 255))
        (roundHalfUp (rgb.2.2 * 255))
    else
      0xFFFFFFFF

/-- A concrete environment where every condition stated by the claim
holds (Matte present with length `n_components`, colorspace present, not
Pattern) yet the code's extra condition
`CountComponents() ≤ m_nComponents` fails (4 > 3; reachable via
`CreateDCTDecoder`'s ICCBased path, which only rejects
`colorspace_comps < m_nComponents`, cpdf_dib.cpp lines 612-619). -/
def matteCounterexampleEnv : MatteEnv where
  matte := some [0, 0, 0]
  csPresent := true
  family := Family.kICCBased
  nComponents := 3
  csCountComponents := 4
  toRGB := fun _ => (0, 0, 0)

/-! ### Scanline production (C1, C2, C3, C10) -/

/-- `GetBits8` (cpdf_dib.cpp lines 47-58): extract an `nbits`-wide
big-endian field (`nbits ∈ {1,2,4,8,16}`, `bitpos` a multiple of `nbits`)
from the byte buffer. -/
def GetBits8 (pData : List Nat) (bitpos : Nat) (nbits : Nat) : Nat :=
  let byte := pData.getD (bitpos / 8) 0
  if nbits = 8 then byte
  else if nbits = 16 then byte * 256 + pData.getD (bitpos / 8 + 1) 0
  else byte / 2 ^ (8 - nbits - bitpos % 8) % 2 ^ nbits

/-- `GetBitValue` (cpdf_dib.cpp lines 60-62):
`pSrc[pos/8] & (1 << (7 - pos%8))` as a boolean. -/
def GetBitValue (pSrc : List Nat) (pos : Nat) : Bool :=
  Nat.testBit (pSrc.getD (pos / 8) 0) (7 - pos % 8)

/-- `DIB_COMP_DATA` (cpdf_dib.h): per-component decode coefficients and
color-key bounds. -/
structure DIB_COMP_DATA where
  m_DecodeMin : ℚ
  m_DecodeStep : ℚ
  m_ColorKeyMin : Int
  m_ColorKeyMax : Int
  deriving Inhabited, DecidableEq, Repr

/-- `IsColorIndexOutOfBounds` (cpdf_dib.cpp lines 73-75). -/
def IsColorIndexOutOfBounds (index : Nat) (comp_datum : DIB_COMP_DATA) : Bool :=
  (index : Int) < comp_datum.m_ColorKeyMin ||
    (index : Int) > comp_datum.m_ColorKeyMax

/-- `AreColorIndicesOutOfBounds` (cpdf_dib.cpp lines 77-85). -/
def AreColorIndicesOutOfBounds (indices : List Nat) (comp_data : List DIB_COMP_DATA)
    (count : Nat) : Bool :=
  (List.range count).any fun i =>
    IsColorIndexOutOfBounds (indices.getD i 0) (comp_data.getD i default)

/-- The `CPDF_DIB` fields `GetScanline` and its helpers consult, plus the
external colorspace operations as abstract functions (`toRGB` for
`GetRGB`, `translateImageLine` for `TranslateImageLine`). -/
structure DIBState where
  m_Width : Nat
  m_Height : Nat
  m_bpc : Nat
  m_nComponents : Nat
  m_Family : Family
  m_GroupFamily : Family
  m_bImageMask : Bool
  m_bDefaultDecode : Bool
  m_bColorKey : Bool
  m_bLoadMask : Bool
  m_CompData : List DIB_COMP_DATA
  palette : Option (List Nat)
  csPresent : Bool
  csCountComponents : Nat
  toRGB : List ℚ → ℚ × ℚ × ℚ
  translateImageLine : List Nat → List Nat

/-- `CPDF_DIB::TransMask` (cpdf_dib.cpp lines 1194-1197). -/
def TransMask (st : DIBState) : Bool :=
  st.m_bLoadMask && decide (st.m_GroupFamily = Family.kDeviceCMYK) &&
    decide (st.m_Family = Family.kDeviceCMYK)

/-- `pdfium::clamp(v, 0.0f, 1.0f)` on the rational embedding. -/
def clamp01 (q : ℚ) : ℚ :=
  min 1 (max 0 q)

/-- `static_cast<uint8_t>(v * 255)` for `v ∈ [0,1]`: truncation. -/
def floorByte (q : ℚ) : Nat :=
  (⌊q * 255⌋).toNat

/-- `CPDF_DIB::Get1BitSetValue` (cpdf_dib.cpp lines 1205-1209). -/
def get1BitSetValue (st : DIBState) : Nat :=
  if (st.m_CompData.getD 0 default).m_ColorKeyMax = 1 then 0
  else
    match st.palette with
    | some pal => pal.getD 1 0
    | none => 0xFFFFFFFF

/-- `CPDF_DIB::Get1BitResetValue` (cpdf_dib.cpp lines 1211-1215). -/
def get1BitResetValue (st : DIBState) : Nat :=
  if (st.m_CompData.getD 0 default).m_ColorKeyMin = 0 then 0
  else
    match st.palette with
    | some pal => pal.getD 0 0
    | none => 0xFF000000

/-- Result of `TranslateScanline24bppDefaultDecode`: `notHandled` models
`return false` (slow path must run); `unchanged` models `return true`
without writing the destination; `delegated` carries the row written by
the colorspace's `TranslateImageLine`; `bytes` carries the row written by
the RGB fast paths. -/
inductive TransResult
  | notHandled
  | unchanged
  | delegated (row : List Nat)
  | bytes (row : List Nat)
  deriving Repr

/-- The `bpc == 8` RGB fast path of
`TranslateScanline24bppDefaultDecode` (cpdf_dib.cpp lines 1031-1038):
per pixel emit `src[2], src[1], src[0]` advancing by 3. -/
def swapRB8 : Nat → List Nat → List Nat
  | 0, _ => []
  | w + 1, src =>
    src.getD 2 0 :: src.getD 1 0 :: src.getD 0 0 :: swapRB8 w (src.drop 3)

/-- The `bpc == 16` RGB fast path (cpdf_dib.cpp lines 1039-1045):
per pixel emit the high bytes `src[4], src[2], src[0]` advancing by 6. -/
def swapRB16 : Nat → List Nat → List Nat
  | 0, _ => []
  | w + 1, src =>
    src.getD 4 0 :: src.getD 2 0 :: src.getD 0 0 :: swapRB16 w (src.drop 6)

/-- The default RGB fast path for other bpc (cpdf_dib.cpp lines
1047-1065): read three components at the running bit position, clamp to
`2^bpc - 1`, rescale by `* 255 / (2^bpc - 1)`, store as B, G, R. -/
def rgbRescaleRow (bpc : Nat) (src : List Nat) : Nat → Nat → List Nat
  | 0, _ => []
  | w + 1, bitpos =>
    let maxData := 2 ^ bpc - 1
    let r := min (GetBits8 src bitpos bpc) maxData
    let g := min (GetBits8 src (bitpos + bpc) bpc) maxData
    let b := min (GetBits8 src (bitpos + 2 * bpc) bpc) maxData
    b * 255 / maxData :: g * 255 / maxData :: r * 255 / maxData ::
      rgbRescaleRow bpc src w (bitpos + 3 * bpc)

/-- `CPDF_DIB::TranslateScanline24bppDefaultDecode` (cpdf_dib.cpp lines
1008-1069). -/
def translateScanline24bppDefaultDecode (st : DIBState) (src : List Nat) :
    TransResult :=
  if st.m_bDefaultDecode = false then TransResult.notHandled
  else if st.m_Family ≠ Family.kDeviceRGB ∧ st.m_Family ≠ Family.kCalRGB then
    if st.m_bpc ≠ 8 then TransResult.notHandled
    else if st.m_nComponents = st.csCountComponents then
      TransResult.delegated (st.translateImageLine src)
    else TransResult.unchanged
  else if st.m_nComponents ≠ 3 then TransResult.unchanged
  else if st.m_bpc = 8 then TransResult.bytes (swapRB8 st.m_Width src)
  else if st.m_bpc = 16 then TransResult.bytes (swapRB16 st.m_Width src)
  else TransResult.bytes (rgbRescaleRow st.m_bpc src st.m_Width 0)

/-- One column's decoded component values in the slow path of
`TranslateScanline24bpp` (cpdf_dib.cpp lines 976-988): component `color`
of column `col` is read at byte `col * n + color` (bpc = 8) or at bit
`(col * n + color) * bpc`, then mapped through
`m_DecodeMin + m_DecodeStep * data`. -/
def slowPathColorValues (st : DIBState) (src : List Nat) (col : Nat) : List ℚ :=
  (List.range st.m_nComponents).map fun color =>
    let data :=
      if st.m_bpc = 8 then src.getD (col * st.m_nComponents + color) 0
      else GetBits8 src ((col * st.m_nComponents + color) * st.m_bpc) st.m_bpc
    (st.m_CompData.getD color default).m_DecodeMin +
      (st.m_CompData.getD color default).m_DecodeStep * data

/-- The slow path of `TranslateScanline24bpp` (cpdf_dib.cpp lines
967-1005): per column, TransMask inversion or `GetRGB`, with the `R,G,B`
locals persisting across columns in the `Pattern` case; clamp to `[0,1]`,
truncate `* 255` to bytes, store as B, G, R. -/
def slowPathRowAux (st : DIBState) (src : List Nat) (col : Nat) :
    Nat → ℚ × ℚ × ℚ → List Nat
  | 0, _ => []
  | rem + 1, prev =>
    let values := slowPathColorValues st src col
    let rgb :=
      if TransMask st then
        let k := 1 - values.getD 3 0
        ((1 - values.getD 0 0) * k, (1 - values.getD 1 0) * k,
          (1 - values.getD 2 0) * k)
      else if st.m_Family ≠ Family.kPattern then st.toRGB values
      else prev
    let r := clamp01 rgb.1
    let g := clamp01 rgb.2.1
    let b := clamp01 rgb.2.2
    floorByte b :: floorByte g :: floorByte r ::
      slowPathRowAux st src (col + 1) rem (r, g, b)

/-- `CPDF_DIB::TranslateScanline24bpp` (cpdf_dib.cpp lines 959-1006):
`none` models the destination buffer being left untouched (`bpc == 0`, or
the default-decode path returned `true` without writing). -/
def translateScanline24bpp (st : DIBState) (src : List Nat) :
    Option (List Nat) :=
  if st.m_bpc = 0 then none
  else
    match translateScanline24bppDefaultDecode st src with
    | TransResult.delegated row => some row
    | TransResult.bytes row => some row
    | TransResult.unchanged => none
    | TransResult.notHandled =>
      some (slowPathRowAux st src 0 st.m_Width (0, 0, 0))

/-- The packed-code unpacking loop of `GetScanline` for
`bpc * n_components ≤ 8`, `bpc ≠ 8` (cpdf_dib.cpp lines 1127-1136):
per column OR together the components shifted by `color * bpc`. -/
def unpackIndexedRow (st : DIBState) (src : List Nat) : Nat → Nat → List Nat
  | 0, _ => []
  | rem + 1, bitpos =>
    let colorIndex := (List.range st.m_nComponents).foldl
      (fun acc color =>
        acc ||| (GetBits8 src (bitpos + color * st.m_bpc) st.m_bpc <<<
          (color * st.m_bpc)))
      0
    colorIndex :: unpackIndexedRow st src rem (bitpos + st.m_nComponents * st.m_bpc)

/-- The color-key fan-out of the indexed-depth path of `GetScanline`
(cpdf_dib.cpp lines 1141-1158): per column emit `B, G, R` from the
palette (`FXARGB_B/G/R`, or the index replicated when no palette is
present) and the alpha byte `0xFF` when the index is out of the
component-0 key range, else `0`. -/
def indexedColorKeyRow (st : DIBState) (lineBuf : List Nat) :
    Nat → Nat → List Nat
  | 0, _ => []
  | rem + 1, col =>
    let index := lineBuf.getD col 0
    let rest :=
      (if IsColorIndexOutOfBounds index (st.m_CompData.getD 0 default) then 0xFF
       else 0) :: indexedColorKeyRow st lineBuf rem (col + 1)
    match st.palette with
    | some pal =>
      pal.getD index 0 % 256 :: pal.getD index 0 / 2 ^ 8 % 256 ::
        pal.getD index 0 / 2 ^ 16 % 256 :: rest
    | none => index :: index :: index :: rest

/-- The color-key alpha prepass of the 24-bpp path of `GetScanline`
(cpdf_dib.cpp lines 1160-1171), as the per-column alpha values: for 3
components at 8 bpc, `0xFF` when some component code is out of its key
range, else `0`; for any other shape the row is memset to `0xFF`. -/
def rgbColorKeyAlphaRow (st : DIBState) (src : List Nat) : List Nat :=
  if st.m_nComponents = 3 ∧ st.m_bpc = 8 then
    (List.range st.m_Width).map fun col =>
      if AreColorIndicesOutOfBounds (src.drop (col * 3)) st.m_CompData 3 then 0xFF
      else 0
  else
    List.replicate st.m_Width 0xFF

/-- The final interleave of the 24-bpp color-key path (cpdf_dib.cpp lines
1179-1187): per column three BGR bytes from the translated line followed
by the precomputed alpha byte. -/
def interleaveBGRA (bgr alpha : List Nat) : Nat → Nat → List Nat
  | 0, _ => []
  | w + 1, col =>
    bgr.getD (col * 3) 0 :: bgr.getD (col * 3 + 1) 0 ::
      bgr.getD (col * 3 + 2) 0 :: alpha.getD col 0 ::
      interleaveBGRA bgr alpha w (col + 1)

/-- A scanline as returned by `GetScanline`: `bytes` for byte buffers,
`words` for the 1-bpp color-key path which writes one 32-bit ARGB value
per pixel. -/
inductive ScanRow
  | bytes (row : List Nat)
  | words (row : List Nat)
  deriving DecidableEq, Repr

/-- The post-acquisition part of `CPDF_DIB::GetScanline` (cpdf_dib.cpp
lines 1102-1188), given the acquired source row `src`, the source pitch,
and `lineBufPrev`, the stale content of `m_pLineBuf` (returned when the
24-bpp translation leaves the destination untouched). -/
def getScanlinePost (st : DIBState) (lineBufPrev src : List Nat)
    (srcPitch : Nat) : ScanRow :=
  if st.m_bpc * st.m_nComponents = 1 then
    if st.m_bImageMask && st.m_bDefaultDecode then
      ScanRow.bytes ((src.take srcPitch).map fun b => 255 - b % 256)
    else if !st.m_bColorKey then
      ScanRow.bytes (src.take srcPitch)
    else
      ScanRow.words ((List.range st.m_Width).map fun col =>
        if GetBitValue src col then get1BitSetValue st else get1BitResetValue st)
  else if st.m_bpc * st.m_nComponents ≤ 8 then
    let lineBuf :=
      if st.m_bpc = 8 then src.take srcPitch
      else unpackIndexedRow st src st.m_Width 0
    if !st.m_bColorKey then ScanRow.bytes lineBuf
    else ScanRow.bytes (indexedColorKeyRow st lineBuf st.m_Width 0)
  else
    let alpha := rgbColorKeyAlphaRow st src
    let translated :=
      if st.csPresent then
        match translateScanline24bpp st src with
        | some row => row
        | none => lineBufPrev
      else src
    if !st.m_bColorKey then ScanRow.bytes translated
    else ScanRow.bytes (interleaveBGRA translated alpha st.m_Width 0)

/-- A cached full bitmap (`m_pCachedBitmap`, produced by the JPX or JBIG2
pipelines): its height, pitch, and scanlines. -/
structure CachedBitmap where
  height : Nat
  pitch : Nat
  rows : List (List Nat)
  deriving Repr

/-- The source-acquisition part of `CPDF_DIB::GetScanline` (cpdf_dib.cpp
lines 1085-1095): a cached bitmap with sufficient pitch is read with the
line clamped to its last row; otherwise an attached lazy decoder's
scanline (`decoderRow`: outer `none` = no decoder, inner `none` = the
decoder returned null); otherwise the raw stream when long enough.
`none` models the null source pointer (short read). -/
def getScanlineSource (bm : Option CachedBitmap) (srcPitch : Nat)
    (decoderRow : Option (Option (List Nat))) (streamData : List Nat)
    (line : Nat) : Option (List Nat) :=
  match bm with
  | some b =>
    if srcPitch ≤ b.pitch then
      some (b.rows.getD (if b.height ≤ line then b.height - 1 else line) [])
    else
      match decoderRow with
      | some r => r
      | none =>
        if (line + 1) * srcPitch ≤ streamData.length then
          some ((streamData.drop (line * srcPitch)).take srcPitch)
        else none
  | none =>
    match decoderRow with
    | some r => r
    | none =>
      if (line + 1) * srcPitch ≤ streamData.length then
        some ((streamData.drop (line * srcPitch)).take srcPitch)
      else none

/-- A concrete decoder state for an 8×1 default-decoded image mask
(spec scenario S3): `bpc = n_components = 1`, no colorspace. -/
def imageMaskState : DIBState where
  m_Width := 8
  m_Height := 1
  m_bpc := 1
  m_nComponents := 1
  m_Family := Family.kUnknown
  m_GroupFamily := Family.kUnknown
  m_bImageMask := true
  m_bDefaultDecode := true
  m_bColorKey := false
  m_bLoadMask := false
  m_CompData := [default]
  palette := none
  csPresent := false
  csCountComponents := 0
  toRGB := fun _ => (0, 0, 0)
  translateImageLine := fun row => row

/-- A concrete decoder state for a 2×1 default-decoded 8-bpc DeviceRGB
image (spec scenario S2). -/
def rgb8State : DIBState where
  m_Width := 2
  m_Height := 1
  m_bpc := 8
  m_nComponents := 3
  m_Family := Family.kDeviceRGB
  m_GroupFamily := Family.kUnknown
  m_bImageMask := false
  m_bDefaultDecode := true
  m_bColorKey := false
  m_bLoadMask := false
  m_CompData := [default, default, default]
  palette := none
  csPresent := true
  csCountComponents := 3
  toRGB := fun _ => (0, 0, 0)
  translateImageLine := fun row => row

/-- A concrete color-keyed 1×1 8-bpc DeviceGray-shaped state
(`n_components = 1`, key range `[0, 255]`, no palette): every index is
inside the key range. -/
def grayColorKeyState : DIBState where
  m_Width := 1
  m_Height := 1
  m_bpc := 8
  m_nComponents := 1
  m_Family := Family.kDeviceGray
  m_GroupFamily := Family.kUnknown
  m_bImageMask := false
  m_bDefaultDecode := true
  m_bColorKey := true
  m_bLoadMask := false
  m_CompData := [⟨0, 1 / 255, 0, 255⟩]
  palette := none
  csPresent := true
  csCountComponents := 1
  toRGB := fun _ => (0, 0, 0)
  translateImageLine := fun row => row

/-- A concrete color-keyed 1×1 8-bpc 3-component DeviceRGB state with key
ranges `[0, 0]` per component (spec scenario S4). -/
def rgbColorKeyState : DIBState where
  m_Width := 1
  m_Height := 1
  m_bpc := 8
  m_nComponents := 3
  m_Family := Family.kDeviceRGB
  m_GroupFamily := Family.kUnknown
  m_bImageMask := false
  m_bDefaultDecode := true
  m_bColorKey := true
  m_bLoadMask := false
  m_CompData := [⟨0, 1 / 255, 0, 0⟩, ⟨0, 1 / 255, 0, 0⟩, ⟨0, 1 / 255, 0, 0⟩]
  palette := none
  csPresent := true
  csCountComponents := 3
  toRGB := fun _ => (0, 0, 0)
  translateImageLine := fun row => row

/-- A concrete color-keyed 1×1 image with `bpc = 2` and two components
(packed indexed-depth shape, `bpc * n_components = 4`): component 0 has
key range `[0, 1]`, component 1 has key range `[2, 3]`. -/
def packedColorKeyState : DIBState where
  m_Width := 1
  m_Height := 1
  m_bpc := 2
  m_nComponents := 2
  m_Family := Family.kDeviceN
  m_GroupFamily := Family.kUnknown
  m_bImageMask := false
  m_bDefaultDecode := true
  m_bColorKey := true
  m_bLoadMask := false
  m_CompData := [⟨0, 1 / 3, 0, 1⟩, ⟨0, 1 / 3, 2, 3⟩]
  palette := none
  csPresent := true
  csCountComponents := 2
  toRGB := fun _ => (0, 0, 0)
  translateImageLine := fun row => row

/-- A concrete color-keyed 1×1 image with `bpc = 8` and two components
(`bpc * n_components = 16`, a 24-bpp-path shape other than 3×8): both
components have key range `[0, 255]`, so every code is in range. -/
def twoCompColorKeyState : DIBState where
  m_Width := 1
  m_Height := 1
  m_bpc := 8
  m_nComponents := 2
  m_Family := Family.kDeviceN
  m_GroupFamily := Family.kUnknown
  m_bImageMask := false
  m_bDefaultDecode := true
  m_bColorKey := true
  m_bLoadMask := false
  m_CompData := [⟨0, 1 / 255, 0, 255⟩, ⟨0, 1 / 255, 0, 255⟩]
  palette := none
  csPresent := true
  csCountComponents := 2
  toRGB := fun _ => (0, 0, 0)
  translateImageLine := fun row => row

/-! ### Theorems -/

/-- C4: the JPX decode-action negotiation computes exactly the spec's table:
with a PDF colorspace present, a component-count match yields `kDoNothing`
(or `kUseRgb` for stock `DeviceRGB`), the declared==3 / JPX==4 / sRGB case
yields `kConvertArgbToRgb`, any other mismatch yields `kFail`; with no PDF
colorspace, 3 components yield `kUseRgb`, 4 yield `kUseCmyk`, anything else
`kDoNothing`. -/
theorem c4_jpx_decode_action_matches_spec_table
    (jpx_info : JpxImageInfo) (pdf_colorspace : Option PdfCsInfo) :
    GetJpxDecodeAction jpx_info pdf_colorspace =
      jpxDecodeActionSpecTable jpx_info pdf_colorspace := by
  cases pdf_colorspace with
  | none =>
    simp only [GetJpxDecodeAction, jpxDecodeActionSpecTable]
    rcases jpx_info with ⟨c, o⟩
    match c with
    | 0 => rfl
    | 1 => rfl
    | 2 => rfl
    | 3 => rfl
    | 4 => rfl
    | n + 5 => rfl
  | some cs =>
    simp only [GetJpxDecodeAction, jpxDecodeActionSpecTable]
    by_cases hm : jpx_info.components = cs.countComponents
    · simp [hm]
    · simp [hm]

/-- C5 counterexample: the image `width = height = 0x1FFFF`, `bpc = 1`,
`n_components = 1` has `width * height * bpc * n_components ≥ 2^32`
(so the claim demands `kFail` at the size check), yet both dimensions are
valid and the size check passes (`isSome`), so `StartLoadDIBBase`
proceeds to the pixel-buffer allocation. -/
theorem c5_counterexample :
    131071 * 131071 * 1 * 1 ≥ 2 ^ 32 ∧
    IsValidDimension 131071 = true ∧
    (startLoadSizeCheck 1 1 131071 131071).isSome = true := by
  refine ⟨by norm_num, by decide, ?_⟩
  simp only [startLoadSizeCheck, CalculatePitch8]
  norm_num

/-- C5 amended: the size check of `StartLoadDIBBase` rejects the image
(returns `kFail` before the pixel buffer is allocated) exactly when the
checked 32-bit computation `ceil(bpc * n_components * width / 8) * height`
overflows: either `bpc * n_components * width + 7 ≥ 2^32` already, or the
resulting byte pitch times `height` is `≥ 2^32`.  The raw product
`width * height * bpc * n_components` being `≥ 2^32` is neither necessary
nor sufficient. -/
theorem c5_size_check_rejects_exactly_on_checked_overflow
    (bpc nComponents width height : Nat) :
    startLoadSizeCheck bpc nComponents width height = none ↔
      (2 ^ 32 ≤ bpc * nComponents * width + 7 ∨
       2 ^ 32 ≤ (bpc * nComponents * width + 7) / 8 * height) := by
  unfold startLoadSizeCheck CalculatePitch8
  by_cases h : bpc * nComponents * width + 7 < 2 ^ 32
  · rw [if_pos h]
    show (if (bpc * nComponents * width + 7) / 8 * height < 2 ^ 32 then
        some ((bpc * nComponents * width + 7) / 8 * height) else none) = none ↔ _
    by_cases h2 : (bpc * nComponents * width + 7) / 8 * height < 2 ^ 32
    · rw [if_pos h2]
      constructor
      · intro hc
        exact absurd hc (by simp)
      · intro hc
        exfalso
        rcases hc with hc | hc
        · omega
        · omega
    · rw [if_neg h2]
      constructor
      · intro _
        right
        omega
      · intro _
        rfl
  · rw [if_neg h]
    constructor
    · intro _
      left
      omega
    · intro _
      rfl

/-- C6: after a lazy scanline decoder is constructed, decoder creation
succeeds iff both pitch computations succeed and the pitch computed from
the decoder's own bpc / component count / width is at least the pitch
computed from the ImageParams' bpc / n_components / width; any shortfall
makes `CreateDecoder` return `kFail`. -/
theorem c6_create_decoder_pitch_check
    (bpc nComponents width decBpc decComps decWidth : Nat) :
    createDecoderPitchCheck bpc nComponents width decBpc decComps decWidth =
        LoadState.kSuccess ↔
      ((CalculatePitch8 bpc nComponents width).isSome ∧
       (CalculatePitch8 decBpc decComps decWidth).isSome ∧
       (CalculatePitch8 bpc nComponents width).getD 0 ≤
         (CalculatePitch8 decBpc decComps decWidth).getD 0) := by
  unfold createDecoderPitchCheck
  cases hreq : CalculatePitch8 bpc nComponents width with
  | none => simp
  | some requested =>
    cases hprov : CalculatePitch8 decBpc decComps decWidth with
    | none => simp
    | some provided =>
      show (if provided < requested then LoadState.kFail else LoadState.kSuccess) =
          LoadState.kSuccess ↔ _
      by_cases h : provided < requested
      · rw [if_pos h]
        simp only [hreq, hprov, Option.isSome_some, Option.getD_some]
        constructor
        · intro hc
          exact absurd hc (by simp)
        · intro hc
          exfalso
          omega
      · rw [if_neg h]
        simp only [hreq, hprov, Option.isSome_some, Option.getD_some]
        constructor
        · intro _
          exact ⟨trivial, trivial, by omega⟩
        · intro _
          trivial

/-- C7 counterexample: the claim says a resumed mask load finishing with
`kFail` during `continue_decode` still reports `kSuccess` for the primary.
But when `m_Status = kContinue` (the state `StartLoadMaskDIB` leaves
behind after the mask's start returned `kContinue`), `ContinueLoadDIBBase`
returns `ContinueLoadMaskDIB`'s result unchanged, which is `kFail`: the
mask is detached, yet the primary reports `kFail`, not `kSuccess`. -/
theorem c7_counterexample :
    startLoadMaskDIB LoadState.kFail LoadState.kContinue =
      (LoadState.kContinue, true, LoadState.kContinue) ∧
    continueLoadMaskDIB true LoadState.kFail = (false, LoadState.kFail) ∧
    continueLoadDIBBase LoadState.kContinue "FlateDecode"
        FxcodecStatus.kDecodeFinished true true LoadState.kFail =
      LoadState.kFail := by
  refine ⟨rfl, rfl, rfl⟩

/-- C7 amended: a mask sub-decoder failure always detaches the mask, but
only partly shields the primary: (a) at initial start, `StartLoadMaskDIB`
resets the mask and returns `kSuccess`; (b) on the JBIG2 completion path
of `continue_decode` (where `m_Status ≠ kContinue`), a mask failure from
the trailing `ContinueLoadMaskDIB` is swallowed and the primary reports
`kSuccess`; but (c) when `continue_decode` is entered with
`m_Status = kContinue` (waiting on the mask), a mask failure makes the
primary's `continue_decode` itself return `kFail` (with the mask
detached). -/
theorem c7_mask_failure_behaviour (status : LoadState) :
    (startLoadMaskDIB status LoadState.kFail =
        (status, false, LoadState.kSuccess)) ∧
    (status ≠ LoadState.kContinue ∧ status ≠ LoadState.kFail →
      continueLoadDIBBase status "JBIG2Decode" FxcodecStatus.kDecodeFinished
          true true LoadState.kFail = LoadState.kSuccess) ∧
    (continueLoadDIBBase LoadState.kContinue "JBIG2Decode"
        FxcodecStatus.kDecodeFinished true true LoadState.kFail =
      LoadState.kFail) ∧
    (continueLoadMaskDIB true LoadState.kFail).1 = false := by
  refine ⟨rfl, ?_, rfl, rfl⟩
  intro h
  cases status with
  | kSuccess => rfl
  | kContinue => exact absurd rfl h.1
  | kFail => exact absurd rfl h.2

/-- C7 witness: instantiating the amended theorem at `m_Status = kSuccess`
(the state a JBIG2 decode leaves behind, cpdf_dib.cpp line 532). -/
theorem c7_mask_failure_behaviour_witness :
    continueLoadDIBBase LoadState.kSuccess "JBIG2Decode"
        FxcodecStatus.kDecodeFinished true true LoadState.kFail =
      LoadState.kSuccess :=
  (c7_mask_failure_behaviour LoadState.kSuccess).2.1
    ⟨by decide, by decide⟩

/-- C9: for a decoder not waiting on a mask continuation
(`m_Status ≠ kContinue`), `ContinueLoadDIBBase` returns `kFail` when the
terminal filter is `JPXDecode`, and returns `kSuccess` without performing
any decoding work when the terminal filter is neither `JPXDecode` nor
`JBIG2Decode`. -/
theorem c9_continue_dispatch (status : LoadState) (decoder : String)
    (jbig2Status : FxcodecStatus) (hasMask maskPresent : Bool)
    (maskResult : LoadState) (hs : status ≠ LoadState.kContinue) :
    (decoder = "JPXDecode" →
      continueLoadDIBBase status decoder jbig2Status hasMask maskPresent
          maskResult = LoadState.kFail) ∧
    (decoder ≠ "JPXDecode" → decoder ≠ "JBIG2Decode" →
      continueLoadDIBBase status decoder jbig2Status hasMask maskPresent
          maskResult = LoadState.kSuccess) := by
  constructor
  · intro hd
    unfold continueLoadDIBBase
    rw [if_neg hs, if_pos hd]
  · intro hd1 hd2
    unfold continueLoadDIBBase
    rw [if_neg hs, if_neg hd1, if_pos hd2]

/-- C9 witness: instantiating the dispatch theorem at concrete filters. -/
theorem c9_continue_dispatch_witness :
    continueLoadDIBBase LoadState.kSuccess "JPXDecode"
        FxcodecStatus.kDecodeFinished false false LoadState.kSuccess =
      LoadState.kFail ∧
    continueLoadDIBBase LoadState.kSuccess "FlateDecode"
        FxcodecStatus.kDecodeFinished false false LoadState.kSuccess =
      LoadState.kSuccess :=
  ⟨(c9_continue_dispatch LoadState.kSuccess "JPXDecode"
      FxcodecStatus.kDecodeFinished false false LoadState.kSuccess
      (by decide)).1 rfl,
   (c9_continue_dispatch LoadState.kSuccess "FlateDecode"
      FxcodecStatus.kDecodeFinished false false LoadState.kSuccess
      (by decide)).2 (by decide) (by decide)⟩

/-- C8 counterexample: in `matteCounterexampleEnv` the claim's conditions
all hold, so the claim demands `MatteColor = ARGB(0, round(R*255), ...)`
(which here is `0`), yet the code leaves `MatteColor = 0xFFFFFFFF`. -/
theorem c8_counterexample :
    matteCounterexampleEnv.matte =
      some (List.replicate matteCounterexampleEnv.nComponents (0 : ℚ)) ∧
    matteCounterexampleEnv.csPresent = true ∧
    matteCounterexampleEnv.family ≠ Family.kPattern ∧
    ArgbEncode 0 (roundHalfUp ((0 : ℚ) * 255)) (roundHalfUp ((0 : ℚ) * 255))
        (roundHalfUp ((0 : ℚ) * 255)) = 0 ∧
    startLoadMaskMatteColor matteCounterexampleEnv = 0xFFFFFFFF := by
  refine ⟨rfl, rfl, by decide, ?_, rfl⟩
  norm_num [ArgbEncode, roundHalfUp, byteOfInt]

/-- C8 amended: with an SMask stream present, `m_MatteColor` is set to
`ARGB(0, round(R*255), round(G*255), round(B*255))` with `(R,G,B) =
GetRGB(Matte)` exactly when the SMask dictionary has a `Matte` array whose
length equals `n_components`, the parent colorspace is present and not of
the Pattern family, **and** the colorspace's own component count is at
most `n_components`; otherwise `m_MatteColor` stays `0xFFFFFFFF`. -/
theorem c8_matte_color (e : MatteEnv) :
    (∀ colors, e.matte = some colors →
      (e.csPresent = true ∧ e.family ≠ Family.kPattern ∧
          colors.length = e.nComponents ∧
          e.csCountComponents ≤ e.nComponents →
        startLoadMaskMatteColor e =
          ArgbEncode 0 (roundHalfUp ((e.toRGB colors).1 * 255))
            (roundHalfUp ((e.toRGB colors).2.1 * 255))
            (roundHalfUp ((e.toRGB colors).2.2 * 255))) ∧
      (¬ (e.csPresent = true ∧ e.family ≠ Family.kPattern ∧
          colors.length = e.nComponents ∧
          e.csCountComponents ≤ e.nComponents) →
        startLoadMaskMatteColor e = 0xFFFFFFFF)) ∧
    (e.matte = none → startLoadMaskMatteColor e = 0xFFFFFFFF) := by
  constructor
  · intro colors hm
    constructor
    · intro hcond
      unfold startLoadMaskMatteColor
      rw [hm]
      show (if e.csPresent = true ∧ e.family ≠ Family.kPattern ∧
          colors.length = e.nComponents ∧
          e.csCountComponents ≤ e.nComponents then _ else _) = _
      rw [if_pos hcond]
    · intro hcond
      unfold startLoadMaskMatteColor
      rw [hm]
      show (if e.csPresent = true ∧ e.family ≠ Family.kPattern ∧
          colors.length = e.nComponents ∧
          e.csCountComponents ≤ e.nComponents then _ else _) = _
      rw [if_neg hcond]
  · intro hm
    unfold startLoadMaskMatteColor
    rw [hm]

/-- C8 witness: a DeviceRGB-like environment where the conditions hold and
the matte evaluates through `GetRGB = (1, 0, 1/2)` to `0x00FF0080`, and
`matteCounterexampleEnv` where they fail and the color stays
`0xFFFFFFFF`. -/
theorem c8_matte_color_witness :
    startLoadMaskMatteColor
        { matte := some [1, 0, 0]
          csPresent := true
          family := Family.kDeviceRGB
          nComponents := 3
          csCountComponents := 3
          toRGB := fun _ => (1, 0, 1 / 2) } = 0x00FF0080 ∧
    startLoadMaskMatteColor matteCounterexampleEnv = 0xFFFFFFFF := by
  constructor
  · have h := ((c8_matte_color
        { matte := some [1, 0, 0]
          csPresent := true
          family := Family.kDeviceRGB
          nComponents := 3
          csCountComponents := 3
          toRGB := fun _ => (1, 0, 1 / 2) }).1 [1, 0, 0] rfl).1
      ⟨rfl, by decide, rfl, by decide⟩
    rw [h]
    norm_num [ArgbEncode, roundHalfUp, byteOfInt]
    decide
  · have h := ((c8_matte_color matteCounterexampleEnv).1 [0, 0, 0] rfl).2
      (by
        intro hc
        exact absurd hc.2.2.2 (by decide))
    exact h

set_option maxRecDepth 4096 in
/-- Helper: on bytes, the code's truncating `~b` equals xor with 255. -/
theorem byte_complement_eq_xor : ∀ b < 256, 255 - b % 256 = Nat.xor b 255 := by
  decide

/-- C2: for an image-mask image with default decode (`bpc = n_components
= 1`), the scanline post-processing returns the bytewise bitwise
complement of the acquired source row. -/
theorem c2_image_mask_scanline_is_complement (st : DIBState)
    (prev src : List Nat)
    (him : st.m_bImageMask = true) (hdd : st.m_bDefaultDecode = true)
    (hbpc : st.m_bpc = 1) (hn : st.m_nComponents = 1)
    (hbytes : ∀ b ∈ src, b < 256) :
    getScanlinePost st prev src src.length =
      ScanRow.bytes (src.map fun b => Nat.xor b 255) := by
  unfold getScanlinePost
  rw [hbpc, hn, him, hdd]
  norm_num
  intro b hb
  exact byte_complement_eq_xor b (hbytes b hb)

/-- C2 witness: spec scenario S3, payload byte `0b10110001 = 177` comes
back as `0b01001110 = 78`. -/
theorem c2_image_mask_scanline_is_complement_witness :
    getScanlinePost imageMaskState [] [177] 1 = ScanRow.bytes [78] :=
  (c2_image_mask_scanline_is_complement imageMaskState [] [177] rfl rfl rfl rfl
    (by decide)).trans (by decide)

/-- C10: when a cached full bitmap with sufficient pitch exists, a line
index at or past the bitmap's height is clamped to the last row: the
acquisition returns that last row and the accessed index stays strictly
below the bitmap's height. -/
theorem c10_cached_bitmap_line_clamped (b : CachedBitmap) (srcPitch : Nat)
    (decoderRow : Option (Option (List Nat))) (streamData : List Nat)
    (line : Nat) (hp : srcPitch ≤ b.pitch) (hl : b.height ≤ line)
    (hh : 0 < b.height) :
    getScanlineSource (some b) srcPitch decoderRow streamData line =
      some (b.rows.getD (b.height - 1) []) ∧ b.height - 1 < b.height := by
  constructor
  · unfold getScanlineSource
    show (if srcPitch ≤ b.pitch then
        some (b.rows.getD (if b.height ≤ line then b.height - 1 else line) [])
      else _) = _
    rw [if_pos hp, if_pos hl]
  · omega

/-- C10 witness: a 1-row cached bitmap read at line 5 yields row 0. -/
theorem c10_cached_bitmap_line_clamped_witness :
    getScanlineSource (some ⟨1, 4, [[1, 2, 3, 4]]⟩) 4 none [] 5 =
      some [1, 2, 3, 4] :=
  ((c10_cached_bitmap_line_clamped ⟨1, 4, [[1, 2, 3, 4]]⟩ 4 none [] 5
    (by decide) (by decide) (by decide)).1).trans (by decide)

/-- Helper: `List.getD` peels three leading elements at once. -/
theorem cons3_getD (a b c : Nat) (l : List Nat) (n : Nat) :
    (a :: b :: c :: l).getD (n + 3) 0 = l.getD n 0 := rfl

/-- Helper: `List.getD` through `List.drop`. -/
theorem getD_drop (l : List Nat) (n i : Nat) :
    (l.drop n).getD i 0 = l.getD (n + i) 0 := by
  simp [List.getD_eq_getElem?_getD, List.getElem?_drop]

/-- Helper: `swapRB8` swaps the first and third byte of every 3-byte
pixel and keeps the middle byte. -/
theorem swapRB8_getD (w : Nat) :
    ∀ (src : List Nat) (c : Nat), c < w →
      (swapRB8 w src).getD (3 * c) 0 = src.getD (3 * c + 2) 0 ∧
      (swapRB8 w src).getD (3 * c + 1) 0 = src.getD (3 * c + 1) 0 ∧
      (swapRB8 w src).getD (3 * c + 2) 0 = src.getD (3 * c) 0 := by
  induction w with
  | zero =>
    intro src c hc
    exact absurd hc (by omega)
  | succ w ih =>
    intro src c hc
    cases c with
    | zero =>
      refine ⟨rfl, rfl, rfl⟩
    | succ c =>
      obtain ⟨h1, h2, h3⟩ := ih (src.drop 3) c (by omega)
      have hunf : swapRB8 (w + 1) src = src.getD 2 0 :: src.getD 1 0 ::
          src.getD 0 0 :: swapRB8 w (src.drop 3) := rfl
      refine ⟨?_, ?_, ?_⟩
      · rw [show 3 * (c + 1) = 3 * c + 3 from by ring,
          show 3 * c + 3 + 2 = 3 + (3 * c + 2) from by ring]
        rw [hunf, cons3_getD, h1, getD_drop]
      · rw [show 3 * (c + 1) + 1 = 3 * c + 1 + 3 from by ring,
          show 3 * c + 1 + 3 = 3 + (3 * c + 1) from by ring]
        conv_lhs => rw [show 3 + (3 * c + 1) = 3 * c + 1 + 3 from by ring]
        rw [hunf, cons3_getD, h2, getD_drop]
      · rw [show 3 * (c + 1) + 2 = 3 * c + 2 + 3 from by ring,
          show 3 * (c + 1) = 3 + 3 * c from by ring]
        rw [hunf, cons3_getD, h3, getD_drop]

/-- C3: for a default-decoded image with 8 bits per component, 3
components and DeviceRGB (or CalRGB) color space and no color key, the
scanline post-processing returns `swapRB8`, whose output row has the
first and third byte of every 3-byte pixel swapped (R and B exchanged, G
unchanged) relative to the source row. -/
theorem c3_rgb8_default_decode_swaps_r_and_b (st : DIBState)
    (prev src : List Nat) (p : Nat)
    (hdd : st.m_bDefaultDecode = true)
    (hfam : st.m_Family = Family.kDeviceRGB ∨ st.m_Family = Family.kCalRGB)
    (hbpc : st.m_bpc = 8) (hn : st.m_nComponents = 3)
    (hck : st.m_bColorKey = false) (hcs : st.csPresent = true) :
    getScanlinePost st prev src p = ScanRow.bytes (swapRB8 st.m_Width src) ∧
    ∀ c, c < st.m_Width →
      (swapRB8 st.m_Width src).getD (3 * c) 0 = src.getD (3 * c + 2) 0 ∧
      (swapRB8 st.m_Width src).getD (3 * c + 1) 0 = src.getD (3 * c + 1) 0 ∧
      (swapRB8 st.m_Width src).getD (3 * c + 2) 0 = src.getD (3 * c) 0 := by
  constructor
  · have htr : translateScanline24bppDefaultDecode st src =
        TransResult.bytes (swapRB8 st.m_Width src) := by
      unfold translateScanline24bppDefaultDecode
      rw [hdd, hbpc, hn]
      rcases hfam with h | h <;> simp [h]
    unfold getScanlinePost
    rw [hbpc, hn, hck, hcs]
    norm_num
    unfold translateScanline24bpp
    rw [hbpc, htr]
    norm_num
  · intro c hc
    exact swapRB8_getD st.m_Width src c hc

/-- C3 witness: spec scenario S2, payload `[10,20,30,40,50,60]` becomes
`[30,20,10,60,50,40]`. -/
theorem c3_rgb8_default_decode_swaps_r_and_b_witness :
    getScanlinePost rgb8State [] [10, 20, 30, 40, 50, 60] 6 =
      ScanRow.bytes [30, 20, 10, 60, 50, 40] :=
  ((c3_rgb8_default_decode_swaps_r_and_b rgb8State [] [10, 20, 30, 40, 50, 60]
    6 rfl (Or.inl rfl) rfl rfl rfl rfl).1).trans (by decide)

/-- Helper: `List.getD` peels four leading elements at once. -/
theorem cons4_getD (a b c d : Nat) (l : List Nat) (n : Nat) :
    (a :: b :: c :: d :: l).getD (n + 4) 0 = l.getD n 0 := rfl

/-- Helper: the alpha byte of column `c` in `indexedColorKeyRow` is
`0xFF` exactly when `IsColorIndexOutOfBounds` holds for the column's
index against component 0. -/
theorem indexedColorKeyRow_alpha (st : DIBState) (lineBuf : List Nat) :
    ∀ (rem col c : Nat), c < rem →
      (indexedColorKeyRow st lineBuf rem col).getD (4 * c + 3) 0 =
        if IsColorIndexOutOfBounds (lineBuf.getD (col + c) 0)
            (st.m_CompData.getD 0 default) then 0xFF else 0 := by
  intro rem
  induction rem with
  | zero =>
    intro col c hc
    exact absurd hc (by omega)
  | succ rem ih =>
    intro col c hc
    cases c with
    | zero =>
      simp only [indexedColorKeyRow]
      cases hpal : st.palette with
      | some pal =>
        simp only [hpal, Nat.add_zero]
        rfl
      | none =>
        simp only [hpal, Nat.add_zero]
        rfl
    | succ c =>
      have hih := ih (col + 1) c (by omega)
      simp only [indexedColorKeyRow]
      cases hpal : st.palette with
      | some pal =>
        simp only [hpal]
        rw [show 4 * (c + 1) + 3 = 4 * c + 3 + 4 from by ring, cons4_getD, hih,
          show col + 1 + c = col + (c + 1) from by ring]
      | none =>
        simp only [hpal]
        rw [show 4 * (c + 1) + 3 = 4 * c + 3 + 4 from by ring, cons4_getD, hih,
          show col + 1 + c = col + (c + 1) from by ring]

/-- Helper: the alpha byte of column `c` in `interleaveBGRA` comes from
the precomputed alpha row. -/
theorem interleaveBGRA_alpha (bgr alpha : List Nat) :
    ∀ (w col c : Nat), c < w →
      (interleaveBGRA bgr alpha w col).getD (4 * c + 3) 0 =
        alpha.getD (col + c) 0 := by
  intro w
  induction w with
  | zero =>
    intro col c hc
    exact absurd hc (by omega)
  | succ w ih =>
    intro col c hc
    cases c with
    | zero =>
      simp only [interleaveBGRA, Nat.add_zero]
      rfl
    | succ c =>
      have hih := ih (col + 1) c (by omega)
      simp only [interleaveBGRA]
      rw [show 4 * (c + 1) + 3 = 4 * c + 3 + 4 from by ring, cons4_getD, hih,
        show col + 1 + c = col + (c + 1) from by ring]

/-- Helper: indexing the alpha prepass row of the 3-component 8-bpc
color-key path. -/
theorem rgbColorKeyAlphaRow_getD (st : DIBState) (src : List Nat) (col : Nat)
    (h3 : st.m_nComponents = 3) (h8 : st.m_bpc = 8) (hcol : col < st.m_Width) :
    (rgbColorKeyAlphaRow st src).getD col 0 =
      if AreColorIndicesOutOfBounds (src.drop (col * 3)) st.m_CompData 3 then
        0xFF
      else 0 := by
  unfold rgbColorKeyAlphaRow
  rw [if_pos ⟨h3, h8⟩]
  rw [List.getD_eq_getElem?_getD, List.getElem?_map, List.getElem?_range hcol]
  rfl

/-- Helper: `AreColorIndicesOutOfBounds` is false exactly when every one
of the first `count` indices lies inside its component's key range. -/
theorem areColorIndicesOutOfBounds_eq_false_iff (indices : List Nat)
    (comp_data : List DIB_COMP_DATA) (count : Nat) :
    AreColorIndicesOutOfBounds indices comp_data count = false ↔
      ∀ i < count,
        (comp_data.getD i default).m_ColorKeyMin ≤ (indices.getD i 0 : Int) ∧
        (indices.getD i 0 : Int) ≤ (comp_data.getD i default).m_ColorKeyMax := by
  unfold AreColorIndicesOutOfBounds IsColorIndexOutOfBounds
  simp only [List.any_eq_false, List.mem_range, Bool.or_eq_true,
    decide_eq_true_eq, not_or, not_lt, gt_iff_lt]

/-- Helper: the code's out-of-bounds alpha choice, rephrased against the
in-range conjunction. -/
theorem colorKeyAlpha_if_eq (index : Nat) (c : DIB_COMP_DATA) :
    (if IsColorIndexOutOfBounds index c then (255 : Nat) else 0) =
      if c.m_ColorKeyMin ≤ (index : Int) ∧ (index : Int) ≤ c.m_ColorKeyMax then
        0
      else 255 := by
  unfold IsColorIndexOutOfBounds
  by_cases h : c.m_ColorKeyMin ≤ (index : Int) ∧
      (index : Int) ≤ c.m_ColorKeyMax
  · rw [if_pos h]
    simp only [Bool.or_eq_true, decide_eq_true_eq, gt_iff_lt]
    rw [if_neg]
    push_neg
    exact ⟨h.1, h.2⟩
  · rw [if_neg h]
    simp only [Bool.or_eq_true, decide_eq_true_eq, gt_iff_lt]
    have hcond : (index : Int) < c.m_ColorKeyMin ∨
        c.m_ColorKeyMax < (index : Int) := by
      by_contra hc
      push_neg at hc
      exact h ⟨hc.1, hc.2⟩
    rw [if_pos hcond]

/-- C1 amended: for every color-keyed image, the Bgra32 alpha byte has
the opposite polarity of the claim, and its exact meaning depends on the
path.  In the indexed-depth path (`1 < bpc * n_components ≤ 8`, with the
row of packed color indices copied for `bpc = 8` or assembled by
`unpackIndexedRow` otherwise) the alpha byte is `0` iff the **packed
color index** lies within **component 0's** `[key_min, key_max]` interval
and `0xFF` otherwise — the individual component codes and the other
components' intervals are never consulted.  In the 3-component 8-bpc
path the alpha byte is `0` iff every one of the three codes lies within
its own interval, else `0xFF`.  In every other 24-bpp color-key shape
(`8 < bpc * n_components` but not 3 components at 8 bpc) the alpha byte
is `0xFF` for every pixel regardless of the codes (the row is memset,
cpdf_dib.cpp line 1169). -/
theorem c1_color_key_alpha (st : DIBState) (prev src : List Nat) (p : Nat)
    (hck : st.m_bColorKey = true) :
    (∀ lineBuf, lineBuf = (if st.m_bpc = 8 then src.take p
        else unpackIndexedRow st src st.m_Width 0) →
      1 < st.m_bpc * st.m_nComponents → st.m_bpc * st.m_nComponents ≤ 8 →
      getScanlinePost st prev src p =
        ScanRow.bytes (indexedColorKeyRow st lineBuf st.m_Width 0) ∧
      ∀ col, col < st.m_Width →
        (indexedColorKeyRow st lineBuf st.m_Width 0).getD
            (4 * col + 3) 0 =
          if (st.m_CompData.getD 0 default).m_ColorKeyMin ≤
                (lineBuf.getD col 0 : Int) ∧
              (lineBuf.getD col 0 : Int) ≤
                (st.m_CompData.getD 0 default).m_ColorKeyMax then 0
          else 255) ∧
    (st.m_nComponents = 3 → st.m_bpc = 8 →
      ∃ bgr,
        getScanlinePost st prev src p =
          ScanRow.bytes
            (interleaveBGRA bgr (rgbColorKeyAlphaRow st src) st.m_Width 0) ∧
        ∀ col, col < st.m_Width →
          (interleaveBGRA bgr (rgbColorKeyAlphaRow st src)
              st.m_Width 0).getD (4 * col + 3) 0 =
            if ((st.m_CompData.getD 0 default).m_ColorKeyMin ≤
                  (src.getD (col * 3) 0 : Int) ∧
                (src.getD (col * 3) 0 : Int) ≤
                  (st.m_CompData.getD 0 default).m_ColorKeyMax) ∧
              ((st.m_CompData.getD 1 default).m_ColorKeyMin ≤
                  (src.getD (col * 3 + 1) 0 : Int) ∧
                (src.getD (col * 3 + 1) 0 : Int) ≤
                  (st.m_CompData.getD 1 default).m_ColorKeyMax) ∧
              ((st.m_CompData.getD 2 default).m_ColorKeyMin ≤
                  (src.getD (col * 3 + 2) 0 : Int) ∧
                (src.getD (col * 3 + 2) 0 : Int) ≤
                  (st.m_CompData.getD 2 default).m_ColorKeyMax) then 0
            else 255) ∧
    (8 < st.m_bpc * st.m_nComponents →
      ¬ (st.m_nComponents = 3 ∧ st.m_bpc = 8) →
      ∃ bgr,
        getScanlinePost st prev src p =
          ScanRow.bytes
            (interleaveBGRA bgr (rgbColorKeyAlphaRow st src) st.m_Width 0) ∧
        ∀ col, col < st.m_Width →
          (interleaveBGRA bgr (rgbColorKeyAlphaRow st src)
              st.m_Width 0).getD (4 * col + 3) 0 = 255) := by
  refine ⟨?_, ?_, ?_⟩
  · intro lineBuf hl h1 h8
    subst hl
    have hne1 : ¬ st.m_bpc * st.m_nComponents = 1 := by omega
    constructor
    · unfold getScanlinePost
      rw [if_neg hne1, if_pos h8, hck]
      norm_num
    · intro col hcol
      rw [indexedColorKeyRow_alpha st _ st.m_Width 0 col hcol,
        Nat.zero_add]
      exact colorKeyAlpha_if_eq _ (st.m_CompData.getD 0 default)
  · intro hn hbpc
    have hpath : getScanlinePost st prev src p =
        ScanRow.bytes
          (interleaveBGRA
            (if st.csPresent then
              match translateScanline24bpp st src with
              | some row => row
              | none => prev
             else src)
            (rgbColorKeyAlphaRow st src) st.m_Width 0) := by
      unfold getScanlinePost
      rw [hbpc, hn, hck]
      norm_num
    refine ⟨_, hpath, ?_⟩
    intro col hcol
    rw [interleaveBGRA_alpha _ _ st.m_Width 0 col hcol, Nat.zero_add,
      rgbColorKeyAlphaRow_getD st src col hn hbpc hcol]
    by_cases hall : ((st.m_CompData.getD 0 default).m_ColorKeyMin ≤
          (src.getD (col * 3) 0 : Int) ∧
        (src.getD (col * 3) 0 : Int) ≤
          (st.m_CompData.getD 0 default).m_ColorKeyMax) ∧
      ((st.m_CompData.getD 1 default).m_ColorKeyMin ≤
          (src.getD (col * 3 + 1) 0 : Int) ∧
        (src.getD (col * 3 + 1) 0 : Int) ≤
          (st.m_CompData.getD 1 default).m_ColorKeyMax) ∧
      ((st.m_CompData.getD 2 default).m_ColorKeyMin ≤
          (src.getD (col * 3 + 2) 0 : Int) ∧
        (src.getD (col * 3 + 2) 0 : Int) ≤
          (st.m_CompData.getD 2 default).m_ColorKeyMax)
    · rw [if_pos hall]
      have hfalse : AreColorIndicesOutOfBounds (src.drop (col * 3))
          st.m_CompData 3 = false := by
        rw [areColorIndicesOutOfBounds_eq_false_iff]
        intro i hi
        rw [getD_drop]
        interval_cases i
        · simpa using hall.1
        · exact hall.2.1
        · exact hall.2.2
      rw [hfalse]
      rfl
    · rw [if_neg hall]
      cases hb : AreColorIndicesOutOfBounds (src.drop (col * 3))
          st.m_CompData 3 with
      | true => rfl
      | false =>
        exfalso
        apply hall
        have hiff := areColorIndicesOutOfBounds_eq_false_iff
          (src.drop (col * 3)) st.m_CompData 3
        have h0 := hiff.mp hb 0 (by norm_num)
        have h1 := hiff.mp hb 1 (by norm_num)
        have h2 := hiff.mp hb 2 (by norm_num)
        rw [getD_drop] at h0 h1 h2
        exact ⟨by simpa using h0, h1, h2⟩
  · intro h24 hnot
    have hne1 : ¬ st.m_bpc * st.m_nComponents = 1 := by omega
    have hne8 : ¬ st.m_bpc * st.m_nComponents ≤ 8 := by omega
    have hpath : getScanlinePost st prev src p =
        ScanRow.bytes
          (interleaveBGRA
            (if st.csPresent then
              match translateScanline24bpp st src with
              | some row => row
              | none => prev
             else src)
            (rgbColorKeyAlphaRow st src) st.m_Width 0) := by
      unfold getScanlinePost
      rw [if_neg hne1, if_neg hne8, hck]
      norm_num
    refine ⟨_, hpath, ?_⟩
    intro col hcol
    rw [interleaveBGRA_alpha _ _ st.m_Width 0 col hcol, Nat.zero_add]
    unfold rgbColorKeyAlphaRow
    rw [if_neg hnot]
    rw [List.getD_eq_getElem?_getD, List.getElem?_replicate]
    rw [if_pos hcol]
    rfl

/-- C1 counterexample: in `grayColorKeyState` the single component code
`5` lies inside the key range `[0, 255]`, so the claim demands alpha
`0xFF`, yet `GetScanline` produces alpha `0`. -/
theorem c1_counterexample :
    ((grayColorKeyState.m_CompData.getD 0 default).m_ColorKeyMin ≤ (5 : Int) ∧
      (5 : Int) ≤ (grayColorKeyState.m_CompData.getD 0 default).m_ColorKeyMax) ∧
    getScanlinePost grayColorKeyState [] [5] 1 =
      ScanRow.bytes [5, 5, 5, 0] := by
  exact ⟨by decide, rfl⟩

/-- C1 witness: the amended theorem applied to all three paths —
`grayColorKeyState` (indexed path at 8 bpc, in-range code `5` gives alpha
`0`); `packedColorKeyState` (indexed path at 2 bpc × 2 components: codes
`1 ∈ [0,1]` and `2 ∈ [2,3]` are each inside their own interval, yet the
packed index `9` is outside component 0's `[0,1]`, so alpha is `255`);
`rgbColorKeyState` (3-component 8-bpc path, codes `[7,7,7]` outside the
`[0,0]` key ranges give alpha `255`); and `twoCompColorKeyState`
(2 components at 8 bpc: codes `[0,0]` are inside the `[0,255]` ranges yet
alpha is `255` from the memset). -/
theorem c1_color_key_alpha_witness :
    ((indexedColorKeyRow grayColorKeyState ([5].take 1) 1 0).getD 3 0 = 0) ∧
    (GetBits8 [96] 0 2 = 1 ∧ GetBits8 [96] 2 2 = 2 ∧
      unpackIndexedRow packedColorKeyState [96] 1 0 = [9] ∧
      (indexedColorKeyRow packedColorKeyState
        (unpackIndexedRow packedColorKeyState [96] 1 0) 1 0).getD 3 0 = 255) ∧
    (∃ bgr,
      getScanlinePost rgbColorKeyState [] [7, 7, 7] 3 =
        ScanRow.bytes
          (interleaveBGRA bgr (rgbColorKeyAlphaRow rgbColorKeyState [7, 7, 7])
            1 0) ∧
      (interleaveBGRA bgr (rgbColorKeyAlphaRow rgbColorKeyState [7, 7, 7])
          1 0).getD 3 0 = 255) ∧
    (∃ bgr,
      getScanlinePost twoCompColorKeyState [] [0, 0] 2 =
        ScanRow.bytes
          (interleaveBGRA bgr (rgbColorKeyAlphaRow twoCompColorKeyState [0, 0])
            1 0) ∧
      (interleaveBGRA bgr (rgbColorKeyAlphaRow twoCompColorKeyState [0, 0])
          1 0).getD 3 0 = 255) := by
  refine ⟨?_, ⟨by decide, by decide, by decide, ?_⟩, ?_, ?_⟩
  · have h := ((c1_color_key_alpha grayColorKeyState [] [5] 1 rfl).1
      ([5].take 1) rfl (by decide) (by decide)).2 0 (by decide)
    exact h.trans (by decide)
  · have h := ((c1_color_key_alpha packedColorKeyState [] [96] 1 rfl).1
      (unpackIndexedRow packedColorKeyState [96] 1 0) rfl (by decide)
      (by decide)).2 0 (by decide)
    exact h.trans (by decide)
  · obtain ⟨bgr, heq, halpha⟩ :=
      (c1_color_key_alpha rgbColorKeyState [] [7, 7, 7] 3 rfl).2.1 rfl rfl
    have h := halpha 0 (by decide)
    exact ⟨bgr, heq, h.trans (by decide)⟩
  · obtain ⟨bgr, heq, halpha⟩ :=
      (c1_color_key_alpha twoCompColorKeyState [] [0, 0] 2 rfl).2.2
        (by decide) (by decide)
    exact ⟨bgr, heq, halpha 0 (by decide)⟩

end PdfiumDib
